import Mathlib

/-!
Shallow embedding of the `tag-and-build` Nx executor
(src/build-tools/src/executors/tag-and-build/tag-and-build.ts).

The executor is one linear async function.  Its external reads (the
package.json manifest, `git tag --points-at HEAD`, the Nx build target,
`git rev-parse HEAD`, the docker invocation) are modelled as fields of a
`World` record holding each collaborator's outcome, and the executor body
is translated statement by statement into a pure function from the options
and the world to an `ExecResult`.  The sequence of external calls the run
performs is recorded in order in `ExecResult.effects`.

String operations mirror the JavaScript ones the source uses
(`String.prototype.split` on a one-character separator, `trim`,
`substring(0, n)`, template interpolation of a possibly-`undefined`
destructured element).  They are implemented structurally over `String.data`
so that concrete runs reduce inside the kernel.
-/

namespace NxBuildTools

/-- JavaScript-style whitespace test for the characters `trim` removes that
can occur in command output (space, tab, newline, carriage return). -/
def isJsWhitespace (c : Char) : Bool :=
  c = ' ' ∨ c = '\t' ∨ c = '\n' ∨ c = '\r'

/-- Accumulator version of a split on a one-character separator, JS
`String.prototype.split(sep)` semantics: splitting the empty string yields
`[""]`, separators at the ends yield empty fields. -/
def splitCharAux (sep : Char) : List Char → List Char → List (List Char)
  | [], acc => [acc.reverse]
  | c :: cs, acc =>
    if c = sep then acc.reverse :: splitCharAux sep cs []
    else splitCharAux sep cs (c :: acc)

/-- JS `s.split(sep)` for a one-character separator. -/
def jsSplit (sep : Char) (s : String) : List String :=
  (splitCharAux sep s.data []).map (fun cs => String.mk cs)

/-- JS `s.trim()` restricted to the whitespace characters of
`isJsWhitespace`. -/
def jsTrim (s : String) : String :=
  String.mk (((s.data.dropWhile isJsWhitespace).reverse.dropWhile isJsWhitespace).reverse)

/-- JS `s.substring(0, n)` (the source only applies it to ASCII git output,
where JS code units and characters coincide). -/
def jsTake (n : Nat) (s : String) : String :=
  String.mk (s.data.take n)

/-- Character-level prefix test between strings. -/
def strIsPrefixOf (p s : String) : Bool :=
  List.isPrefixOf p.data s.data

/-- Drop the first `n` characters of a string. -/
def strDrop (n : Nat) (s : String) : String :=
  String.mk (s.data.drop n)

/-- Character length of a string. -/
def strLen (s : String) : Nat :=
  s.data.length

/-- The version data the executor keeps after a successful resolution:
the locals `appVersion`, `majorVersion` and `majorMinorVersion` of
tag-and-build.ts (the spec's `ResolvedVersion` with `minorCompound` named
`majorMinor`). -/
structure VersionInfo where
  version : String
  major : String
  majorMinor : String
deriving DecidableEq, Repr

/-- Lines 47-49 / 87-89 of tag-and-build.ts:
`const [major, minor] = appVersion.split('.')`, then the template
`` `${major}.${minor}` ``.  When the version has a single dot-segment,
`minor` is `undefined` and JS interpolates the string `"undefined"`. -/
def deriveVersionInfo (v : String) : VersionInfo :=
  let parts := jsSplit '.' v
  let major := parts.headD ""
  let majorMinor :=
    match parts.get? 1 with
    | some minor => major ++ "." ++ minor
    | none => major ++ ".undefined"
  { version := v, major := major, majorMinor := majorMinor }

/-- Lines 40-64: the manifest step.  The read result is either a failure
(caught, logged as a warning, version treated as absent) or the optional
`version` field; JS truthiness makes an empty-string version count as
absent. -/
def manifestVersion (manifest : Except Unit (Option String)) : Option String :=
  match manifest with
  | Except.error _ => none
  | Except.ok none => none
  | Except.ok (some v) => if v = "" then none else some v

/-- Line 74: `tagPrefix || 'v'` — an absent or empty prefix falls back to
`"v"` (absence is modelled as the empty string, which JS treats the same
way here). -/
def effectiveTagPrefix (tagPrefix : String) : String :=
  if tagPrefix = "" then "v" else tagPrefix

/-- Line 72: `gitTagsOutput.trim().split('\n').filter(Boolean)`. -/
def parseTags (stdout : String) : List String :=
  (jsSplit '\n' (jsTrim stdout)).filter (fun t => t ≠ "")

/-- Lines 75-79: the test of `new RegExp("^" + appName + "/" + pre + "(.*)$")`
against a tag.  On the newline-free tag names git produces, and with the
app name and prefix taken literally (no regex metacharacters, as the spec's
`^<appName>/<tagPrefix><rest>$` notation reads them), the regex match is
exactly this prefix test. -/
def tagMatches (appName pre tag : String) : Bool :=
  strIsPrefixOf (appName ++ "/" ++ pre) tag

/-- The `(.*)` capture of the pattern: what remains of the tag after the
`<appName>/<pre>` prefix. -/
def capturedRest (appName pre tag : String) : String :=
  strDrop (strLen (appName ++ "/" ++ pre)) tag

/-- Lines 72-107: find the first tag matching the pattern; its capture is
the candidate version, demoted to `none` when empty
(`match && match[1] ? match[1] : null`). -/
def resolveFromTags (appName tagPrefix : String) (tags : List String) : Option String :=
  let pre := effectiveTagPrefix tagPrefix
  match tags.find? (fun tag => tagMatches appName pre tag) with
  | none => none
  | some tag =>
    let rest := capturedRest appName pre tag
    if rest = "" then none else some rest

/-- The two fatal resolution outcomes of lines 92-121: the git tag query
itself failed (line 108), or neither source yielded a version (lines 92 and
116, which differ only in their log message). -/
inductive ResolveErr where
  | gitQueryFailed
  | noVersionFound
deriving DecidableEq, Repr

/-- Lines 36-121 as one function: the manifest step, then (only when it
yielded nothing) the git-tag fallback.  The second component records
whether the git tag listing was queried at all. -/
def resolve (manifest : Except Unit (Option String)) (gitTagsOut : Except Unit String)
    (appName tagPrefix : String) : Except ResolveErr VersionInfo × Bool :=
  match manifestVersion manifest with
  | some v => (Except.ok (deriveVersionInfo v), false)
  | none =>
    match gitTagsOut with
    | Except.error _ => (Except.error ResolveErr.gitQueryFailed, true)
    | Except.ok out =>
      match resolveFromTags appName tagPrefix (parseTags out) with
      | some v => (Except.ok (deriveVersionInfo v), true)
      | none => (Except.error ResolveErr.noVersionFound, true)

/-- The external calls the executor performs, in the order the source makes
them: the manifest read (line 43), the `git tag --points-at HEAD` listing
(line 69), the Nx build target invocation (line 124), the
`git rev-parse HEAD` query (line 166) and the docker build invocation with
its composed command string (line 192). -/
inductive Eff where
  | readManifest
  | gitTagList
  | runBuildTarget
  | gitRevParse
  | dockerBuild (cmd : String)
deriving DecidableEq, Repr

/-- Whether an effect is a query of the revision-control tool. -/
def isGitQuery : Eff → Bool
  | Eff.gitTagList => true
  | Eff.gitRevParse => true
  | _ => false

/-- Lines 148-160: the version tag, then (under `generateMajorMinor`) the
major.minor and major tags, each push guarded by JS truthiness of the label
and inequality with every previously pushed label. -/
def versionTagBlock (baseImageName version majorMinor major : String)
    (generateMajorMinor : Bool) : List String :=
  [baseImageName ++ ":" ++ version] ++
    (if generateMajorMinor then
      (if majorMinor ≠ "" ∧ majorMinor ≠ version then
        [baseImageName ++ ":" ++ majorMinor] else []) ++
      (if major ≠ "" ∧ major ≠ version ∧ major ≠ majorMinor then
        [baseImageName ++ ":" ++ major] else [])
    else [])

/-- Lines 145-168: the full ordered docker tag list — version block, then
one tag per `additionalTags` entry in caller order, then the `sha-` tag
built from the short revision id, always last. -/
def buildTags (vi : VersionInfo) (dockerRepository appName : String)
    (generateMajorMinor : Bool) (additionalTags : List String)
    (gitSha : String) : List String :=
  let baseImageName := dockerRepository ++ "/" ++ appName
  versionTagBlock baseImageName vi.version vi.majorMinor vi.major generateMajorMinor
    ++ additionalTags.map (fun tag => baseImageName ++ ":" ++ tag)
    ++ [baseImageName ++ ":sha-" ++ gitSha]

/-- Node `path.join(base, p)` for the already-normalized relative segments
the claims use: joining `""` or `"."` returns the base unchanged, any other
segment is appended after a separator. -/
def pathJoin (base p : String) : String :=
  if p = "" ∨ p = "." then base else base ++ "/" ++ p

/-- Lines 172-189: the composed `docker buildx build` command string. -/
def dockerCommand (push : Bool) (dockerTags : List String)
    (finalDockerfile finalContext appVersion gitSha : String) : String :=
  let cmd := "docker buildx build"
  let cmd := if push then cmd ++ " --push" else cmd
  let cmd := dockerTags.foldl (fun acc tag => acc ++ " -t \"" ++ tag ++ "\"") cmd
  let cmd := cmd ++ " -f \"" ++ finalDockerfile ++ "\" \"" ++ finalContext ++ "\""
  let cmd := cmd ++ " --build-arg APP_VERSION=\"" ++ appVersion ++ "\""
  cmd ++ " --build-arg BUILD_SHA=\"" ++ gitSha ++ "\""

/-- The executor options (src/unnamed/part_000, `TagAndBuildExecutorSchema`),
with JS-absent strings modelled as `""` (the code only tests them for
truthiness) and the optional list and booleans at their falsy defaults. -/
structure Options where
  appName : String
  dockerRepository : String
  buildTarget : String
  dockerfile : String
  push : Bool
  dockerContext : String
  additionalTags : List String
  tagPrefix : String
  generateMajorMinor : Bool
deriving DecidableEq, Repr

/-- The outcomes of every external collaborator one invocation consults:
the project registry entry (`context.projectsConfigurations.projects[appName]`),
the workspace root (`context.root`), the manifest read, the raw stdout of the
git tag listing (or its failure), the build target's stream of results, the
stdout of `git rev-parse HEAD`, and whether the docker invocation succeeds. -/
structure World where
  projectRoot : Option String
  root : String
  manifest : Except Unit (Option String)
  gitTagsOut : Except Unit String
  buildResults : List Bool
  gitShaOut : String
  dockerOk : Bool

/-- What one invocation did: its boolean result, the ordered external calls
it made, and — once lines 145-168 ran — the docker tag list and the resolved
dockerfile/context paths passed to the docker invocation. -/
structure ExecResult where
  success : Bool
  effects : List Eff
  dockerTags : Option (List String)
  dockerfilePath : Option String
  contextPath : Option String
deriving Repr

/-- Lines 8-203 of tag-and-build.ts as one pure function of the options and
the collaborator outcomes.  Each early `return { success: false }` of the
source becomes a record with the effects performed so far; lines 134-143
iterate the build results and abort on the first non-success. -/
def tagAndBuild (opts : Options) (w : World) : ExecResult :=
  match w.projectRoot with
  | none =>
    { success := false, effects := [], dockerTags := none,
      dockerfilePath := none, contextPath := none }
  | some _ =>
    let r := resolve w.manifest w.gitTagsOut opts.appName opts.tagPrefix
    let effs := [Eff.readManifest] ++ (if r.snd then [Eff.gitTagList] else [])
    match r.fst with
    | Except.error _ =>
      { success := false, effects := effs, dockerTags := none,
        dockerfilePath := none, contextPath := none }
    | Except.ok vi =>
      let effs := effs ++ [Eff.runBuildTarget]
      if w.buildResults.all (fun b => b) then
        let gitSha := jsTake 7 (jsTrim w.gitShaOut)
        let tags := buildTags vi opts.dockerRepository opts.appName
          opts.generateMajorMinor opts.additionalTags gitSha
        let finalDockerfile :=
          if opts.dockerfile ≠ "" then pathJoin w.root opts.dockerfile
          else pathJoin w.root "Dockerfile"
        let finalContext :=
          if opts.dockerContext ≠ "" then pathJoin w.root opts.dockerContext
          else w.root
        let cmd := dockerCommand opts.push tags finalDockerfile finalContext
          vi.version gitSha
        { success := w.dockerOk,
          effects := effs ++ [Eff.gitRevParse, Eff.dockerBuild cmd],
          dockerTags := some tags,
          dockerfilePath := some finalDockerfile,
          contextPath := some finalContext }
      else
        { success := false, effects := effs, dockerTags := none,
          dockerfilePath := none, contextPath := none }

/-- The first dot-separated segment of a version string (the spec's reading
of `major`). -/
def firstSegment (v : String) : String :=
  (jsSplit '.' v).headD ""

/-- The compound of the first two dot-separated segments of a version string
(the spec's reading of `minorCompound`; a string with fewer than two
segments is its own compound). -/
def firstTwoSegments (v : String) : String :=
  match jsSplit '.' v with
  | [] => v
  | [a] => a
  | a :: b :: _ => a ++ "." ++ b

/-- Two strings with the same character data are equal. -/
theorem string_data_ext {a b : String} (h : a.data = b.data) : a = b := by
  cases a; cases b; simp_all

/-- Appending different labels to the same `<base>:` produces different
strings, so the tag guards' label inequalities carry over to whole tags. -/
theorem label_append_inj {base x y : String}
    (h : base ++ ":" ++ x = base ++ ":" ++ y) : x = y := by
  have h2 : (base ++ ":" ++ x).data = (base ++ ":" ++ y).data :=
    congrArg String.data h
  simp only [String.data_append] at h2
  exact string_data_ext (List.append_cancel_left h2)

/-- A string enclosing a literal dot is never empty. -/
theorem append_dot_append_ne_empty (a b : String) : a ++ "." ++ b ≠ "" := by
  intro h
  have h2 : (a ++ "." ++ b).data = "".data := congrArg String.data h
  simp [String.data_append] at h2

/-- A string ending in the literal `".undefined"` is never empty. -/
theorem append_undefined_ne_empty (a : String) : a ++ ".undefined" ≠ "" := by
  intro h
  have h2 : (a ++ ".undefined").data = "".data := congrArg String.data h
  simp [String.data_append] at h2

/-- Both branches of the source's `` `${major}.${minor}` `` template contain
a dot, so the derived major.minor compound is never the empty string. -/
theorem majorMinor_ne_empty (v : String) : (deriveVersionInfo v).majorMinor ≠ "" := by
  rcases hp : jsSplit '.' v with _ | ⟨a, _ | ⟨b, t⟩⟩ <;> simp [deriveVersionInfo, hp]
  · exact append_undefined_ne_empty ""
  · exact append_undefined_ne_empty a
  · exact append_dot_append_ne_empty a b

/-- Every successfully resolved `VersionInfo` was produced by
`deriveVersionInfo` from some version string, on either resolution path. -/
theorem resolve_ok_shape {manifest : Except Unit (Option String)}
    {gitTagsOut : Except Unit String} {appName tagPrefix : String}
    {vi : VersionInfo}
    (h : (resolve manifest gitTagsOut appName tagPrefix).fst = Except.ok vi) :
    ∃ v, vi = deriveVersionInfo v := by
  unfold resolve at h
  rcases hm : manifestVersion manifest with _ | v
  · rw [hm] at h
    rcases gitTagsOut with _ | out
    · simp at h
    · simp only at h
      rcases hr : resolveFromTags appName tagPrefix (parseTags out) with _ | v2
      · rw [hr] at h; simp at h
      · rw [hr] at h
        simp only [Except.ok.injEq] at h
        exact ⟨v2, h.symm⟩
  · rw [hm] at h
    simp only [Except.ok.injEq] at h
    exact ⟨v, h.symm⟩

/-- Concrete option fixtures used by the witnesses and counterexamples,
mirroring the repository's own test fixtures
(tag-and-build.spec.ts, `mockContext` and its option objects). -/
def optsBase : Options :=
  { appName := "test-app", dockerRepository := "test-repo", buildTarget := "build",
    dockerfile := "Dockerfile", push := false, dockerContext := ".",
    additionalTags := [], tagPrefix := "", generateMajorMinor := false }

/-- Options requesting major/minor tags and one additional tag. -/
def optsMM : Options := { optsBase with generateMajorMinor := true, additionalTags := ["latest"] }

/-- Options with a custom dockerfile and build-context path. -/
def optsPaths : Options := { optsBase with dockerfile := "docker/Dockerfile.prod", dockerContext := "apps/test-app" }

/-- A world where every collaborator succeeds and the manifest declares
version 1.2.3. -/
def wBase : World :=
  { projectRoot := some "apps/test-app", root := "/test/root",
    manifest := Except.ok (some "1.2.3"), gitTagsOut := Except.ok "",
    buildResults := [true], gitShaOut := "abc1234def", dockerOk := true }

/-- A world with no manifest version and a failing git tag query. -/
def wNoVer : World := { wBase with manifest := Except.ok none, gitTagsOut := Except.error () }

/-- A world where the manifest read throws and a matching git tag exists. -/
def wErrMan : World := { wBase with manifest := Except.error (), gitTagsOut := Except.ok "test-app/v9.9" }

/-- A world with no manifest version whose only git tag matches the pattern
with an empty capture. -/
def wEmptyRest : World := { wBase with manifest := Except.ok none, gitTagsOut := Except.ok "test-app/v" }

/-- A world whose build target reports a failure. -/
def wBuildFail : World := { wBase with buildResults := [true, false] }

/-- C1, counterexample: for the single-segment manifest version "5" the
resolver derives `majorMinor = "5.undefined"` (JS interpolation of the
`undefined` minor), not the first two dot-separated segments of "5", which
are just "5".  This refutes the claim as stated at the explicit input
`manifest = ok (some "5")`. -/
theorem C1_counterexample :
    resolve (Except.ok (some "5")) (Except.ok "") "app" "" =
      (Except.ok { version := "5", major := "5", majorMinor := "5.undefined" }, false) ∧
    firstTwoSegments "5" = "5" ∧ ("5.undefined" : String) ≠ "5" :=
  ⟨rfl, rfl, by decide⟩

/-- C1 (amended): for every non-empty manifest version V, resolution returns
V as the version without consulting the git tag listing, `major` is the
first dot-separated segment of V, and `majorMinor` is the compound of the
first two dot-separated segments when V has at least two of them, and
otherwise is the first segment followed by the literal `".undefined"`. -/
theorem C1_manifest_version_authoritative (v : String) (hv : v ≠ "")
    (gitTagsOut : Except Unit String) (appName tagPrefix : String) :
    resolve (Except.ok (some v)) gitTagsOut appName tagPrefix =
      (Except.ok (VersionInfo.mk v (firstSegment v)
        (if 2 ≤ (jsSplit '.' v).length then firstTwoSegments v
          else firstSegment v ++ ".undefined")), false) := by
  unfold resolve manifestVersion
  simp only [if_neg hv]
  rcases hp : jsSplit '.' v with _ | ⟨a, _ | ⟨b, t⟩⟩ <;>
    simp [deriveVersionInfo, firstSegment, firstTwoSegments, hp]

/-- C1 witness: the amended theorem applied at the manifest version "1.2.3"
with an unrelated git tag present. -/
theorem C1_witness :
    ("1.2.3" : String) ≠ "" ∧
    resolve (Except.ok (some "1.2.3")) (Except.ok "other/v9") "app" "" =
      (Except.ok (VersionInfo.mk "1.2.3" (firstSegment "1.2.3")
        (if 2 ≤ (jsSplit '.' "1.2.3").length then firstTwoSegments "1.2.3"
          else firstSegment "1.2.3" ++ ".undefined")), false) :=
  ⟨by decide,
   C1_manifest_version_authoritative "1.2.3" (by decide) (Except.ok "other/v9") "app" ""⟩

/-- C2, counterexample: the tag sequence `["app/v"]` contains a match of the
pattern `^app/v(.*)$` (with empty capture), so by the claim the first match's
`<rest>` should become the resolved version; instead resolution fails with
`noVersionFound`. -/
theorem C2_counterexample :
    tagMatches "app" (effectiveTagPrefix "") "app/v" = true ∧
    (resolve (Except.ok none) (Except.ok "app/v") "app" "").fst =
      Except.error ResolveErr.noVersionFound :=
  ⟨rfl, rfl⟩

/-- C2 (amended): when the manifest yields no version, the first tag of the
parsed listing matching `^<appName>/<effective prefix><rest>$` determines
the outcome: if its captured `<rest>` is non-empty, resolution succeeds
with `<rest>` as the version (an empty capture instead fails resolution). -/
theorem C2_first_matching_tag_wins (manifest : Except Unit (Option String))
    (hm : manifestVersion manifest = none) (out appName tagPrefix t : String)
    (hfind : (parseTags out).find?
      (fun tag => tagMatches appName (effectiveTagPrefix tagPrefix) tag) = some t)
    (hrest : capturedRest appName (effectiveTagPrefix tagPrefix) t ≠ "") :
    resolve manifest (Except.ok out) appName tagPrefix =
      (Except.ok (deriveVersionInfo
        (capturedRest appName (effectiveTagPrefix tagPrefix) t)), true) := by
  unfold resolve
  rw [hm]
  unfold resolveFromTags
  simp only [hfind]
  rw [if_neg hrest]

/-- C2 witness: the amended theorem applied to the listing output
`"test-app/v1.2.3\nother"`, whose first matching tag is
`test-app/v1.2.3` with capture `1.2.3`. -/
theorem C2_witness :
    manifestVersion (Except.ok none) = none ∧
    (parseTags "test-app/v1.2.3\nother").find?
      (fun tag => tagMatches "test-app" (effectiveTagPrefix "") tag) =
      some "test-app/v1.2.3" ∧
    capturedRest "test-app" (effectiveTagPrefix "") "test-app/v1.2.3" ≠ "" ∧
    resolve (Except.ok none) (Except.ok "test-app/v1.2.3\nother") "test-app" "" =
      (Except.ok (deriveVersionInfo
        (capturedRest "test-app" (effectiveTagPrefix "") "test-app/v1.2.3")), true) :=
  ⟨rfl, rfl, by decide,
   C2_first_matching_tag_wins (Except.ok none) rfl "test-app/v1.2.3\nother"
     "test-app" "" "test-app/v1.2.3" rfl (by decide)⟩

/-- C4, counterexample: for the single-segment resolved version "5" with
`generateMajorMinor = true`, the code appends the extra tag
`repo/app:5.undefined` instead of appending nothing, refuting the claim's
own example. -/
theorem C4_counterexample :
    buildTags (deriveVersionInfo "5") "repo" "app" true [] "abc1234" =
      ["repo/app:5", "repo/app:5.undefined", "repo/app:sha-abc1234"] ∧
    (["repo/app:5", "repo/app:5.undefined", "repo/app:sha-abc1234"] :
      List String) ≠ ["repo/app:5", "repo/app:sha-abc1234"] :=
  ⟨rfl, by decide⟩

/-- C4 (amended): when the stored major and major.minor labels both equal
the full version the version block is the version tag alone, and for all
label values the version/major-minor block never contains a duplicate tag
(each push is guarded by inequality with every previously pushed label);
but the resolver never stores labels both equal to a single-segment version
such as "5" — it derives `majorMinor = "5.undefined"`, which the code then
appends as an extra tag. -/
theorem C4_no_duplicate_version_tags :
    (∀ (base v : String) (gen : Bool), versionTagBlock base v v v gen = [base ++ ":" ++ v]) ∧
    (∀ (base v mm mj : String) (gen : Bool),
      List.Nodup (versionTagBlock base v mm mj gen)) := by
  constructor
  · intro base v gen
    cases gen <;> simp [versionTagBlock]
  · intro base v mm mj gen
    have hne : ∀ (x y : String), x ≠ y → base ++ ":" ++ x ≠ base ++ ":" ++ y :=
      fun x y h hc => h (label_append_inj hc)
    cases gen with
    | false => simp [versionTagBlock]
    | true =>
      by_cases h1 : mm ≠ "" ∧ mm ≠ v <;> by_cases h2 : mj ≠ "" ∧ mj ≠ v ∧ mj ≠ mm <;>
        simp [versionTagBlock, h1, h2]
      · exact ⟨⟨hne v mm (Ne.symm h1.2), hne v mj (Ne.symm h2.2.1)⟩,
          hne mm mj (Ne.symm h2.2.2)⟩
      · exact hne v mm (Ne.symm h1.2)
      · exact hne v mj (Ne.symm h2.2.1)

/-- C9: tag building is a pure function of its six inputs — calls with
componentwise-equal arguments yield equal ordered tag lists (the embedded
section of the source, lines 145-168, reads only these values and performs
no external call). -/
theorem C9_buildTags_deterministic (vi vi2 : VersionInfo)
    (repo repo2 app app2 : String) (gen gen2 : Bool)
    (extras extras2 : List String) (sha sha2 : String)
    (h1 : vi = vi2) (h2 : repo = repo2) (h3 : app = app2) (h4 : gen = gen2)
    (h5 : extras = extras2) (h6 : sha = sha2) :
    buildTags vi repo app gen extras sha =
      buildTags vi2 repo2 app2 gen2 extras2 sha2 := by
  subst h1 h2 h3 h4 h5 h6
  rfl

/-- C9 witness: two invocations on the version 2.0.0 inputs coincide. -/
theorem C9_witness :
    buildTags (deriveVersionInfo "2.0.0") "repo" "app" true [] "abc1234" =
      buildTags (deriveVersionInfo "2.0.0") "repo" "app" true [] "abc1234" :=
  C9_buildTags_deterministic (deriveVersionInfo "2.0.0") (deriveVersionInfo "2.0.0")
    "repo" "repo" "app" "app" true true [] [] "abc1234" "abc1234"
    rfl rfl rfl rfl rfl rfl

/-- A non-empty manifest version settles resolution immediately: the result
is derived from it and the git tag listing is not consulted. -/
theorem resolve_manifest_some (g : Except Unit String) (a p v : String) (hv : v ≠ "") :
    resolve (Except.ok (some v)) g a p = (Except.ok (deriveVersionInfo v), false) := by
  unfold resolve manifestVersion
  simp only [if_neg hv]

/-- Whenever the manifest yields no version, the git tag listing is
consulted, on every branch of the fallback. -/
theorem resolve_snd_true_of_none {m : Except Unit (Option String)}
    {g : Except Unit String} {a p : String} (hm : manifestVersion m = none) :
    (resolve m g a p).snd = true := by
  unfold resolve
  rw [hm]
  rcases g with _ | out
  · rfl
  · simp only
    rcases h : resolveFromTags a p (parseTags out) with _ | v <;> simp [h]

/-- Tag building flattened to the spec's shape: guards written as one
conjunction per derived tag.  The `majorMinor ≠ ""` truthiness guard of the
source is dropped against the hypothesis that the stored compound is
non-empty (true of every resolved version). -/
theorem buildTags_flat (vi : VersionInfo) (hmm : vi.majorMinor ≠ "")
    (repo app : String) (gen : Bool) (extras : List String) (sha : String) :
    buildTags vi repo app gen extras sha =
      [repo ++ "/" ++ app ++ ":" ++ vi.version] ++
      (if gen ∧ vi.majorMinor ≠ vi.version then
        [repo ++ "/" ++ app ++ ":" ++ vi.majorMinor] else []) ++
      (if gen ∧ vi.major ≠ "" ∧ vi.major ≠ vi.version ∧ vi.major ≠ vi.majorMinor then
        [repo ++ "/" ++ app ++ ":" ++ vi.major] else []) ++
      extras.map (fun tag => repo ++ "/" ++ app ++ ":" ++ tag) ++
      [repo ++ "/" ++ app ++ ":sha-" ++ sha] := by
  unfold buildTags versionTagBlock
  cases gen <;> simp [hmm, List.append_assoc]

/-- C3, counterexample: for the resolved version ".5" the derived major is
the empty string, which differs from both the version and the minor
compound, so the claim's rule would append the empty-label tag "repo/app:";
the code's truthiness guard skips it instead. -/
theorem C3_counterexample :
    buildTags (deriveVersionInfo ".5") "repo" "app" true [] "abc1234" =
      ["repo/app:.5", "repo/app:sha-abc1234"] ∧
    (deriveVersionInfo ".5").major = "" ∧
    (deriveVersionInfo ".5").majorMinor = ".5" ∧
    buildTags (deriveVersionInfo ".5") "repo" "app" true [] "abc1234" ≠
      ["repo/app:.5", "repo/app:", "repo/app:sha-abc1234"] :=
  ⟨rfl, rfl, rfl, by decide⟩

/-- C3 (amended): on every run that reaches tag building, the docker tag
list is exactly, in order: the version tag first; then, only under
`generateMajorMinor`, the minorCompound tag when it differs from the
version, then the major tag when it is non-empty and differs from both;
then one tag per `additionalTags` entry in caller order without
deduplication; then the `sha-` tag of the first 7 characters of the trimmed
revision identifier, always last. -/
theorem C3_tag_list_exact (opts : Options) (w : World) (r : String) (vi : VersionInfo)
    (hroot : w.projectRoot = some r)
    (hres : (resolve w.manifest w.gitTagsOut opts.appName opts.tagPrefix).fst = Except.ok vi)
    (hbuild : w.buildResults.all (fun b => b) = true) :
    (tagAndBuild opts w).dockerTags = some (
      [opts.dockerRepository ++ "/" ++ opts.appName ++ ":" ++ vi.version] ++
      (if opts.generateMajorMinor ∧ vi.majorMinor ≠ vi.version then
        [opts.dockerRepository ++ "/" ++ opts.appName ++ ":" ++ vi.majorMinor] else []) ++
      (if opts.generateMajorMinor ∧ vi.major ≠ "" ∧ vi.major ≠ vi.version ∧
          vi.major ≠ vi.majorMinor then
        [opts.dockerRepository ++ "/" ++ opts.appName ++ ":" ++ vi.major] else []) ++
      opts.additionalTags.map
        (fun tag => opts.dockerRepository ++ "/" ++ opts.appName ++ ":" ++ tag) ++
      [opts.dockerRepository ++ "/" ++ opts.appName ++ ":sha-" ++
        jsTake 7 (jsTrim w.gitShaOut)]) := by
  obtain ⟨v, hveq⟩ := resolve_ok_shape hres
  have hmm : vi.majorMinor ≠ "" := by
    rw [hveq]
    exact majorMinor_ne_empty v
  unfold tagAndBuild
  rw [hroot]
  simp only [hres, hbuild]
  rw [buildTags_flat vi hmm]
  simp

/-- C3 witness: the amended theorem at manifest version 1.2.3 with
`generateMajorMinor` and one additional tag, yielding the claim's example
list. -/
theorem C3_witness :
    (tagAndBuild optsMM wBase).dockerTags =
      some ["test-repo/test-app:1.2.3", "test-repo/test-app:1.2", "test-repo/test-app:1",
            "test-repo/test-app:latest", "test-repo/test-app:sha-abc1234"] := by
  have h := C3_tag_list_exact optsMM wBase "apps/test-app" (deriveVersionInfo "1.2.3")
    rfl rfl rfl
  rw [h]
  decide

/-- C5, counterexample: with project root `apps/test-app` and workspace
root `/test/root`, the configured dockerfile `docker/Dockerfile.prod` and
context `apps/test-app` are passed to docker as `/test/root/...` paths —
joined to the workspace root, not to the project root as the claim states
(the repository's own test at tag-and-build.spec.ts expects the same
workspace-root paths). -/
theorem C5_counterexample :
    wBase.projectRoot = some "apps/test-app" ∧
    (tagAndBuild optsPaths wBase).dockerfilePath =
      some "/test/root/docker/Dockerfile.prod" ∧
    (tagAndBuild optsPaths wBase).dockerfilePath ≠
      some (pathJoin "apps/test-app" "docker/Dockerfile.prod") ∧
    (tagAndBuild optsPaths wBase).contextPath ≠
      some (pathJoin "apps/test-app" "apps/test-app") :=
  ⟨rfl, rfl, by decide, by decide⟩

/-- C5 (amended): the dockerfile path (default "Dockerfile") and the
build-context path (default the workspace root itself) are resolved
relative to the workspace root — not the project root — before being passed
to the container build invocation. -/
theorem C5_paths_resolved_against_workspace_root (opts : Options) (w : World)
    (r : String) (vi : VersionInfo)
    (hroot : w.projectRoot = some r)
    (hres : (resolve w.manifest w.gitTagsOut opts.appName opts.tagPrefix).fst = Except.ok vi)
    (hbuild : w.buildResults.all (fun b => b) = true) :
    (tagAndBuild opts w).dockerfilePath =
      some (pathJoin w.root
        (if opts.dockerfile ≠ "" then opts.dockerfile else "Dockerfile")) ∧
    (tagAndBuild opts w).contextPath =
      some (if opts.dockerContext ≠ "" then pathJoin w.root opts.dockerContext
        else w.root) := by
  unfold tagAndBuild
  rw [hroot]
  simp only [hres, hbuild]
  by_cases hd : opts.dockerfile = "" <;> simp [hd]

/-- C5 witness: the amended theorem at the custom-path options, giving the
workspace-root-resolved dockerfile and context paths. -/
theorem C5_witness :
    (tagAndBuild optsPaths wBase).dockerfilePath =
      some (pathJoin wBase.root
        (if optsPaths.dockerfile ≠ "" then optsPaths.dockerfile else "Dockerfile")) ∧
    (tagAndBuild optsPaths wBase).contextPath =
      some (if optsPaths.dockerContext ≠ "" then
        pathJoin wBase.root optsPaths.dockerContext else wBase.root) :=
  C5_paths_resolved_against_workspace_root optsPaths wBase "apps/test-app"
    (deriveVersionInfo "1.2.3") rfl rfl rfl

/-- C6: the two version sources fail asymmetrically — a manifest read
failure is equivalent to an absent manifest version (the run proceeds to
the git tag fallback, which is then consulted), whereas a failure of the
git tag listing itself makes the whole run fail with no tags produced and
no docker invocation. -/
theorem C6_error_asymmetry :
    (∀ (opts : Options) (w : World),
      tagAndBuild opts { w with manifest := Except.error () } =
        tagAndBuild opts { w with manifest := Except.ok none }) ∧
    (∀ (opts : Options) (w : World) (r : String), w.projectRoot = some r →
      w.manifest = Except.error () →
      Eff.gitTagList ∈ (tagAndBuild opts w).effects) ∧
    (∀ (opts : Options) (w : World) (r : String), w.projectRoot = some r →
      manifestVersion w.manifest = none → w.gitTagsOut = Except.error () →
      (tagAndBuild opts w).success = false ∧
      (tagAndBuild opts w).dockerTags = none ∧
      ∀ cmd, Eff.dockerBuild cmd ∉ (tagAndBuild opts w).effects) := by
  refine ⟨fun opts w => rfl, ?_, ?_⟩
  · intro opts w r hroot herr
    have hsnd : (resolve w.manifest w.gitTagsOut opts.appName opts.tagPrefix).snd = true :=
      resolve_snd_true_of_none (by rw [herr]; rfl)
    unfold tagAndBuild
    rw [hroot]
    rcases hf : (resolve w.manifest w.gitTagsOut opts.appName opts.tagPrefix).fst with
      e | vi <;> simp only [hf, hsnd]
    · simp
    · cases hb : w.buildResults.all (fun b => b) <;> simp [hb]
  · intro opts w r hroot hman hg
    have hr : resolve w.manifest w.gitTagsOut opts.appName opts.tagPrefix =
        (Except.error ResolveErr.gitQueryFailed, true) := by
      unfold resolve
      rw [hman, hg]
    unfold tagAndBuild
    rw [hroot]
    simp [hr]

/-- C6 witness: the asymmetry at concrete worlds — a manifest read failure
behaves exactly like an absent version, the git fallback is consulted after
a manifest failure, and a failing git tag query fails the run. -/
theorem C6_witness :
    tagAndBuild optsBase { wBase with manifest := Except.error () } =
      tagAndBuild optsBase { wBase with manifest := Except.ok none } ∧
    Eff.gitTagList ∈ (tagAndBuild optsBase wErrMan).effects ∧
    (tagAndBuild optsBase wNoVer).success = false :=
  ⟨C6_error_asymmetry.1 optsBase wBase,
   C6_error_asymmetry.2.1 optsBase wErrMan "apps/test-app" rfl rfl,
   (C6_error_asymmetry.2.2 optsBase wNoVer "apps/test-app" rfl rfl rfl).1⟩

/-- C7: when the manifest yields no version and no listed tag matches the
pattern with a non-empty capture, the run fails, produces no tag list and
never invokes the container build. -/
theorem C7_no_version_fails (opts : Options) (w : World) (r out : String)
    (hroot : w.projectRoot = some r)
    (hman : manifestVersion w.manifest = none)
    (hg : w.gitTagsOut = Except.ok out)
    (hno : resolveFromTags opts.appName opts.tagPrefix (parseTags out) = none) :
    (tagAndBuild opts w).success = false ∧
    (tagAndBuild opts w).dockerTags = none ∧
    ∀ cmd, Eff.dockerBuild cmd ∉ (tagAndBuild opts w).effects := by
  have hr : resolve w.manifest w.gitTagsOut opts.appName opts.tagPrefix =
      (Except.error ResolveErr.noVersionFound, true) := by
    unfold resolve
    rw [hman, hg]
    simp only [hno]
  unfold tagAndBuild
  rw [hroot]
  simp [hr]

/-- C7 witness: the theorem at the world whose only tag is `test-app/v`,
a pattern match with empty capture. -/
theorem C7_witness :
    (tagAndBuild optsBase wEmptyRest).success = false ∧
    (tagAndBuild optsBase wEmptyRest).dockerTags = none :=
  ⟨(C7_no_version_fails optsBase wEmptyRest "apps/test-app" "test-app/v"
      rfl rfl rfl rfl).1,
   (C7_no_version_fails optsBase wEmptyRest "apps/test-app" "test-app/v"
      rfl rfl rfl rfl).2.1⟩

/-- C8: after a successful resolution the build target is always invoked,
and when any of its streamed results is a failure the run fails before tag
generation and before any docker invocation. -/
theorem C8_build_failure_aborts (opts : Options) (w : World) (r : String)
    (vi : VersionInfo)
    (hroot : w.projectRoot = some r)
    (hres : (resolve w.manifest w.gitTagsOut opts.appName opts.tagPrefix).fst = Except.ok vi) :
    Eff.runBuildTarget ∈ (tagAndBuild opts w).effects ∧
    (w.buildResults.all (fun b => b) = false →
      (tagAndBuild opts w).success = false ∧
      (tagAndBuild opts w).dockerTags = none ∧
      ∀ cmd, Eff.dockerBuild cmd ∉ (tagAndBuild opts w).effects) := by
  unfold tagAndBuild
  rw [hroot]
  simp only [hres]
  constructor
  · rcases hsnd : (resolve w.manifest w.gitTagsOut opts.appName opts.tagPrefix).snd <;>
      cases hb : w.buildResults.all (fun b => b) <;> simp [hb]
  · intro hfail
    rcases hsnd : (resolve w.manifest w.gitTagsOut opts.appName opts.tagPrefix).snd <;>
      simp [hfail]

/-- C8 witness: the theorem at a world whose build stream reports a
failure. -/
theorem C8_witness :
    Eff.runBuildTarget ∈ (tagAndBuild optsBase wBuildFail).effects ∧
    (tagAndBuild optsBase wBuildFail).success = false ∧
    (tagAndBuild optsBase wBuildFail).dockerTags = none :=
  ⟨(C8_build_failure_aborts optsBase wBuildFail "apps/test-app"
      (deriveVersionInfo "1.2.3") rfl rfl).1,
   ((C8_build_failure_aborts optsBase wBuildFail "apps/test-app"
      (deriveVersionInfo "1.2.3") rfl rfl).2 rfl).1,
   ((C8_build_failure_aborts optsBase wBuildFail "apps/test-app"
      (deriveVersionInfo "1.2.3") rfl rfl).2 rfl).2.1⟩

/-- C10: when the manifest declares a non-empty version, the git tag
listing is never queried — every revision-control query the run performs is
the `rev-parse` short-SHA query — and the resolver records that the
fallback was not consulted. -/
theorem C10_manifest_version_skips_tag_query (opts : Options) (w : World)
    (r v : String)
    (hroot : w.projectRoot = some r)
    (hman : w.manifest = Except.ok (some v)) (hv : v ≠ "") :
    Eff.gitTagList ∉ (tagAndBuild opts w).effects ∧
    (∀ e ∈ (tagAndBuild opts w).effects, isGitQuery e = true → e = Eff.gitRevParse) ∧
    (resolve w.manifest w.gitTagsOut opts.appName opts.tagPrefix).snd = false := by
  have hr : resolve w.manifest w.gitTagsOut opts.appName opts.tagPrefix =
      (Except.ok (deriveVersionInfo v), false) := by
    rw [hman]
    exact resolve_manifest_some w.gitTagsOut opts.appName opts.tagPrefix v hv
  unfold tagAndBuild
  rw [hroot]
  simp only [hr]
  cases hb : w.buildResults.all (fun b => b) <;> simp [hb, isGitQuery]

/-- C10 witness: the theorem at the manifest-version world, where the only
git query is the rev-parse one. -/
theorem C10_witness :
    Eff.gitTagList ∉ (tagAndBuild optsBase wBase).effects ∧
    (resolve wBase.manifest wBase.gitTagsOut optsBase.appName optsBase.tagPrefix).snd
      = false :=
  ⟨(C10_manifest_version_skips_tag_query optsBase wBase "apps/test-app" "1.2.3"
      rfl rfl (by decide)).1,
   (C10_manifest_version_skips_tag_query optsBase wBase "apps/test-app" "1.2.3"
      rfl rfl (by decide)).2.2⟩

end NxBuildTools
